import Mathlib

/-!
Shallow embedding of the azure-clpe-tools repository (two scripts:
src/azure_service_health_checker.py, the restricted "checker" variant, and
src/clpe_ncrpes_monitor.py, the "monitor" variant).

External collaborators (the Azure SDK, the json standard library, the
terminal) are modelled as parameters: the VM enumeration is a list, the
instance-view power lookup is a function returning Option (none models a
raised exception), the remote run command result is a RunOutcome value,
json.loads is a function String to Option PyJson, and operator input is a
list of answer strings consumed in order.

Strings are modelled over ASCII: Python str.lower/str.upper/str.strip and
int() agree with the Lean models below on ASCII input, which is the only
input the scripts compare against (fixed tag names, fixed tokens, digits).
-/

namespace Clpe

/-! ## Python string primitives

All operations work on the character list underlying a string, so that
every definition evaluates by kernel reduction on concrete input. -/

/-- ASCII lowercasing of one character (Python str.lower on ASCII). -/
def pyLowerChar (c : Char) : Char :=
  if 'A' ≤ c ∧ c ≤ 'Z' then Char.ofNat (c.toNat + 32) else c

/-- ASCII uppercasing of one character (Python str.upper on ASCII). -/
def pyUpperChar (c : Char) : Char :=
  if 'a' ≤ c ∧ c ≤ 'z' then Char.ofNat (c.toNat - 32) else c

/-- Python s.lower() on ASCII input. -/
def pyLower (s : String) : String := ⟨s.data.map pyLowerChar⟩

/-- Python s.upper() on ASCII input. -/
def pyUpper (s : String) : String := ⟨s.data.map pyUpperChar⟩

/-- The whitespace characters stripped by Python str.strip(). -/
def pyIsSpace (c : Char) : Bool :=
  c == ' ' || c == '\t' || c == '\n' || c == '\r' || c == '\x0b' || c == '\x0c'

/-- Python s.strip(). -/
def pyStrip (s : String) : String :=
  ⟨((s.data.dropWhile pyIsSpace).reverse.dropWhile pyIsSpace).reverse⟩

/-- Split of a character list at every occurrence of a separator. -/
def splitCharAux (sep : Char) : List Char → List Char → List (List Char)
  | [], acc => [acc.reverse]
  | c :: rest, acc =>
    if c == sep then acc.reverse :: splitCharAux sep rest []
    else splitCharAux sep rest (c :: acc)

/-- Python s.split(sep) for a one-character separator. -/
def pySplit (sep : Char) (s : String) : List String :=
  (splitCharAux sep s.data []).map (fun cs => ⟨cs⟩)

/-- Membership test of Python `needle in haystack` on lists of characters:
`isPrefixOfL n h` holds when `n` is a leading block of `h`. -/
def isPrefixOfL : List Char → List Char → Bool
  | [], _ => true
  | _ :: _, [] => false
  | a :: as, b :: bs => a == b && isPrefixOfL as bs

/-- Python s.startswith(pre). -/
def pyStartsWith (pre s : String) : Bool :=
  isPrefixOfL pre.data s.data

/-- Python substring containment `needle in haystack` (contiguous):
true iff the needle occurs as a contiguous block, with the empty needle
always contained. -/
def containsSubL (needle : List Char) : List Char → Bool
  | [] => isPrefixOfL needle []
  | c :: rest => isPrefixOfL needle (c :: rest) || containsSubL needle rest

/-- Python string operator `needle in hay`. -/
def pyInStr (needle hay : String) : Bool :=
  containsSubL needle.toList hay.toList

/-- Valid continuation of a Python integer literal body after its first
digit: digits, with single underscores allowed only between digits. -/
def pyDigitsTail : List Char → Bool
  | [] => true
  | '_' :: rest =>
    match rest with
    | [] => false
    | c :: r => c.isDigit && pyDigitsTail r
  | c :: rest => c.isDigit && pyDigitsTail rest

/-- Valid Python integer literal body: nonempty, starts with a digit,
underscores only single and between digits (CPython int() grammar). -/
def pyDigitsOk : List Char → Bool
  | [] => false
  | c :: rest => c.isDigit && pyDigitsTail rest

/-- Numeric value of a digit-and-underscore block, underscores skipped. -/
def pyDigitsVal (cs : List Char) : Nat :=
  cs.foldl (fun acc c => if c == '_' then acc else 10 * acc + (c.toNat - 48)) 0

/-- Model of Python int(s) on ASCII input: strip whitespace, optional sign,
then a digit body; returns none where CPython raises ValueError. -/
def pyInt (s : String) : Option Int :=
  let cs := (pyStrip s).data
  let core : List Char × Bool :=
    match cs with
    | '+' :: r => (r, false)
    | '-' :: r => (r, true)
    | r => (r, false)
  if pyDigitsOk core.1 then
    let v : Int := Int.ofNat (pyDigitsVal core.1)
    some (if core.2 then -v else v)
  else none

/-! ## Python JSON values

json.loads is external; it is passed in as a function `loads : String →
Option PyJson`, where none models a raised json.JSONDecodeError. -/

/-- Result domain of json.loads: Python values produced from JSON text. -/
inductive PyJson where
  | null
  | bool (b : Bool)
  | num (q : ℚ)
  | str (s : String)
  | arr (elems : List PyJson)
  | obj (fields : List (String × PyJson))
deriving Repr

/-! ## Raw VM data model

One record per element of compute_client.virtual_machines.list_all().
`os_type = none` models any of storage_profile, os_disk, os_type being
None along the attribute chain; `tags = none` models tags being None.
A tag map is a list of key/value pairs with distinct keys (a dict). -/

structure Vm where
  name : String
  id : String
  location : String
  vm_size : String
  os_type : Option String
  tags : Option (List (String × String))
deriving Repr, DecidableEq

/-- Python truthiness of vm.tags: None and the empty dict are falsy. -/
def tagsTruthy : Option (List (String × String)) → Bool
  | none => false
  | some l => !l.isEmpty

/-- Python vm.tags.get(k): none when the key is absent. -/
def tagsGet (tags : Option (List (String × String))) (k : String) : Option String :=
  match tags with
  | none => none
  | some l => l.lookup k

/-- Python vm.tags.get(k, d). -/
def tagsGetD (tags : Option (List (String × String))) (k d : String) : String :=
  (tagsGet tags k).getD d

/-- Python vm.tags.values(). -/
def tagValues : Option (List (String × String)) → List String
  | none => []
  | some l => l.map Prod.snd

/-- Python vm.id.split(sep)[4]: the resource group segment of an Azure
resource id. Azure ids always have at least five segments; on shorter
input CPython would raise IndexError, modelled here by the default "". -/
def rgOf (id : String) : String :=
  ((pySplit '/' id).drop 4).headD ""

/-- Power state derived from the instance-view status codes: the first code
starting with PowerState contributes its last slash-separated segment, and
"unknown" stands when no such code exists (the field keeps its initial
value, exactly as in the source loop with break). -/
def powerStateOf (statuses : List String) : String :=
  match statuses.find? (fun c => pyStartsWith "PowerState/" c) with
  | some c => (pySplit '/' c).getLastD ""
  | none => "unknown"

/-! ## Checker variant: get_clpe_web_vms (src/azure_service_health_checker.py)

The routine as written contains, after the early-continue tag checks at
lines 66 to 86, a stray fragment at lines 89 to 91 reading the undefined
name tag_filter at inconsistent indentation; CPython rejects the module
with an IndentationError there. `get_clpe_web_vms` below models the guard
pipeline with that fragment excised (the reading under which the rest of
the routine has a meaning), and `get_clpe_web_vms_frag` models the most
charitable executable reading of the fragment kept in place: executed as
the next statement of the loop body, it raises NameError on the first VM
that passes all the tag checks. -/

/-- Required value of the System tag in both scripts. -/
def clpeEngine : String := "CENTRAL_LOYALTY_PROMOTIONS_ENGINE"

/-- Filter predicate of get_clpe_web_vms, lines 66 to 86: Windows OS disk
(case-insensitive), truthy tags, System and ARIS tags with exact values,
and WEB contained in the uppercased Name tag. -/
def checkerPred (v : Vm) : Bool :=
  (match v.os_type with
   | some t => pyLower t == "windows"
   | none => false) &&
  tagsTruthy v.tags &&
  tagsGet v.tags "System" == some clpeEngine &&
  tagsGet v.tags "ARIS" == some "CLPE" &&
  pyInStr "WEB" (pyUpper (tagsGetD v.tags "Name" ""))

/-- The vm_info dict built by the checker for each VM passing the filter. -/
structure CheckerVmInfo where
  name : String
  resource_group : String
  location : String
  vm_size : String
  power_state : String
  tags : List (String × String)
deriving Repr, DecidableEq

/-- Construction of the checker vm_info: power_state starts as "unknown",
is set from the instance view when the lookup succeeds, and stays
"unknown" when the lookup raises (power v = none). -/
def toInfoC (power : Vm → Option (List String)) (v : Vm) : CheckerVmInfo :=
  { name := v.name
    resource_group := rgOf v.id
    location := v.location
    vm_size := v.vm_size
    power_state :=
      match power v with
      | none => "unknown"
      | some statuses => powerStateOf statuses
    tags := v.tags.getD [] }

/-- get_clpe_web_vms with the defective fragment excised: the loop over
list_all keeps each VM passing `checkerPred`, enriched by the power
lookup, in enumeration order. An AzureError from list_all itself makes
the routine return the empty list; the enumeration argument models a
successful listing. -/
def get_clpe_web_vms (power : Vm → Option (List String)) : List Vm → List CheckerVmInfo
  | [] => []
  | v :: rest =>
    if checkerPred v then toInfoC power v :: get_clpe_web_vms power rest
    else get_clpe_web_vms power rest

/-- get_clpe_web_vms with the stray fragment of lines 89 to 91 kept:
reading the undefined name tag_filter raises NameError (not an
AzureError, hence uncaught) on the first VM passing the tag checks. -/
def get_clpe_web_vms_frag (power : Vm → Option (List String)) : List Vm → Except String (List CheckerVmInfo)
  | [] => .ok []
  | v :: rest =>
    if checkerPred v then .error "NameError: name tag_filter is not defined"
    else get_clpe_web_vms_frag power rest

/-! ## Monitor variant: get_clpe_vms (src/clpe_ncrpes_monitor.py) -/

/-- self.clpe_tag of the monitor: a single combined string, tested for
membership among the tag values at line 52. -/
def clpeTag : String := "System:CENTRAL_LOYALTY_PROMOTIONS_ENGINE"

/-- Condition of line 51 to 52 once os_type is available: Windows OS disk,
truthy tags, and the combined clpeTag string among the tag values. -/
def monitorPredOs (t : String) (tags : Option (List (String × String))) : Bool :=
  pyLower t == "windows" && tagsTruthy tags && (tagValues tags).contains clpeTag

/-- Total form of the monitor filter predicate for VMs whose os_type chain
is present; a VM with os_type none makes the routine raise instead. -/
def monitorPred (v : Vm) : Bool :=
  match v.os_type with
  | some t => monitorPredOs t v.tags
  | none => false

/-- The vm_info dict built by the monitor, with its constant os_version. -/
structure MonitorVmInfo where
  name : String
  resource_group : String
  location : String
  vm_size : String
  power_state : String
  tags : List (String × String)
  os_version : String
deriving Repr, DecidableEq

/-- Construction of the monitor vm_info, power handling as in the checker. -/
def toInfoM (power : Vm → Option (List String)) (v : Vm) : MonitorVmInfo :=
  { name := v.name
    resource_group := rgOf v.id
    location := v.location
    vm_size := v.vm_size
    power_state :=
      match power v with
      | none => "unknown"
      | some statuses => powerStateOf statuses
    tags := v.tags.getD []
    os_version := "Windows Server 2016 Datacenter" }

/-- get_clpe_vms: the monitor loop dereferences
vm.storage_profile.os_disk.os_type.name unconditionally, so a VM with a
missing os_type chain raises AttributeError (uncaught: the except clause
only covers AzureError), modelled as an error result; otherwise each VM
satisfying the line 51 to 52 condition is kept in enumeration order. -/
def get_clpe_vms (power : Vm → Option (List String)) : List Vm → Except String (List MonitorVmInfo)
  | [] => .ok []
  | v :: rest =>
    match v.os_type with
    | none => .error "AttributeError: NoneType object has no attribute name"
    | some t =>
      match get_clpe_vms power rest with
      | .error e => .error e
      | .ok tl => .ok (if monitorPredOs t v.tags then toInfoM power v :: tl else tl)

/-! ## Selection prompts

The interactive loops read a stream of operator answers, one string per
input() call, modelled as a list consumed in order. A result of none
means the answer stream ran out while the loop was still waiting for
input (in the running script, the loop would block for another answer);
some r means the routine returned, with r the Python return value
(some vm for a selected VM, none for a cancel or declined confirmation,
and for the monitor the select-all sentinel dict). -/

/-- Cancel tokens shared by both prompts. -/
def quitTokens : List String := ["q", "quit", "exit"]

/-- Loop body of select_vm (checker, lines 134 to 159): the answer is
stripped; a cancel token returns None; int() failure re-prompts; an index
outside 1..N re-prompts; an index of a running VM returns it; an index of
a non-running VM consumes one more answer as the override confirmation,
returning the VM on y and None otherwise. -/
def selectLoopC (vms : List CheckerVmInfo) : List String → Option (Option CheckerVmInfo)
  | [] => none
  | c :: rest =>
    let choice := pyStrip c
    if pyLower choice ∈ quitTokens then some none
    else
      match pyInt choice with
      | none => selectLoopC vms rest
      | some k =>
        if 1 ≤ k ∧ k ≤ (vms.length : Int) then
          match vms.get? (k - 1).toNat with
          | some vm =>
            if vm.power_state ≠ "running" then
              match rest with
              | [] => none
              | a :: _ => if pyLower (pyStrip a) = "y" then some (some vm) else some none
            else some (some vm)
          | none => selectLoopC vms rest
        else selectLoopC vms rest

/-- select_vm: an empty VM list returns None before any prompt. -/
def select_vm (vms : List CheckerVmInfo) (inputs : List String) : Option (Option CheckerVmInfo) :=
  if vms.isEmpty then some none else selectLoopC vms inputs

/-- Return value of select_clpe_vm: a single VM or the select-all sentinel
dict of line 107 carrying the whole filtered list. -/
inductive MonitorSelection where
  | one (vm : MonitorVmInfo)
  | all (vms : List MonitorVmInfo)
deriving Repr, DecidableEq

/-- Loop body of select_clpe_vm (monitor, lines 100 to 128): the answer is
stripped and lowercased up front; a cancel token returns None; the token
all returns the select-all sentinel immediately; otherwise as in the
checker loop. -/
def selectLoopM (vms : List MonitorVmInfo) : List String → Option (Option MonitorSelection)
  | [] => none
  | c :: rest =>
    let choice := pyLower (pyStrip c)
    if choice ∈ quitTokens then some none
    else if choice = "all" then some (some (.all vms))
    else
      match pyInt choice with
      | none => selectLoopM vms rest
      | some k =>
        if 1 ≤ k ∧ k ≤ (vms.length : Int) then
          match vms.get? (k - 1).toNat with
          | some vm =>
            if vm.power_state ≠ "running" then
              match rest with
              | [] => none
              | a :: _ => if pyLower (pyStrip a) = "y" then some (some (.one vm)) else some none
            else some (some (.one vm))
          | none => selectLoopM vms rest
        else selectLoopM vms rest

/-- select_clpe_vm: an empty VM list returns None before any prompt. -/
def select_clpe_vm (vms : List MonitorVmInfo) (inputs : List String) : Option (Option MonitorSelection) :=
  if vms.isEmpty then some none else selectLoopM vms inputs

/-! ## Remote health check

begin_run_command(...).result() is external: its outcome is either the
value list of the response (each element contributing its message string,
with a missing or None value list and an empty list both modelled as the
empty list, which the source treats identically), a raised AzureError, or
another raised exception. -/

/-- Outcome of the remote run-command call. -/
inductive RunOutcome where
  | ok (msgs : List String)
  | azureError (e : String)
  | otherError (e : String)
deriving Repr

/-- Return dict of check_service_health (checker): the success branch
carries the parsed service list and the raw output, the failure branch an
error string and the raw output. -/
inductive CheckerHealthResult where
  | success (services : List PyJson) (raw_output : String)
  | failure (error : String) (raw_output : String)
deriving Repr

/-- check_service_health (checker, lines 161 to 256), response handling:
an empty value list yields the no-output failure; otherwise the first
message is parsed with json.loads, a parse failure yields the parse
failure with the raw text, and a parsed value yields success, a JSON
array taken as is and any other value wrapped in a singleton list
(the isinstance check at line 229). Raised transport faults are caught
and mapped to labeled failures; the function is total, no exception
reaches the caller. -/
def check_service_health (loads : String → Option PyJson) (outcome : RunOutcome) : CheckerHealthResult :=
  match outcome with
  | .azureError e => .failure ("Azure API error: " ++ e) ""
  | .otherError e => .failure ("Unexpected error: " ++ e) ""
  | .ok [] => .failure "No output received from VM" ""
  | .ok (output :: _) =>
    match loads output with
    | some j => .success (match j with | .arr l => l | _ => [j]) output
    | none => .failure "Failed to parse service information" output

/-- Return dict of monitor_ncrpes_service (monitor): as in the checker but
tagged with the VM name, and the parsed data kept unwrapped. -/
inductive MonitorHealthResult where
  | success (vm_name : String) (data : PyJson) (raw_output : String)
  | failure (vm_name : String) (error : String) (raw_output : String)
deriving Repr

/-- monitor_ncrpes_service (monitor, lines 130 to 256), response handling,
parameterized by the transport outcome of each VM. Total: both except
clauses map raised faults to failure dicts. -/
def monitor_ncrpes_service (loads : String → Option PyJson) (transport : MonitorVmInfo → RunOutcome)
    (vm : MonitorVmInfo) : MonitorHealthResult :=
  match transport vm with
  | .azureError e => .failure vm.name ("Azure API error: " ++ e) ""
  | .otherError e => .failure vm.name ("Unexpected error: " ++ e) ""
  | .ok [] => .failure vm.name "No output received from VM" ""
  | .ok (output :: _) =>
    match loads output with
    | some j => .success vm.name j output
    | none => .failure vm.name "Failed to parse service information" output

/-- The all-VMs branch of run_clpe_monitoring (lines 362 to 368): one
monitor_ncrpes_service call per VM in list order, each result handed to
display_ncrpes_results; the list collects the rendered reports in order. -/
def run_all_monitoring (loads : String → Option PyJson) (transport : MonitorVmInfo → RunOutcome) :
    List MonitorVmInfo → List MonitorHealthResult
  | [] => []
  | vm :: rest => monitor_ncrpes_service loads transport vm :: run_all_monitoring loads transport rest

/-! ## Concrete values used to instantiate theorems -/

/-- Power lookup whose every call raises. -/
def powNone : Vm → Option (List String) := fun _ => none

/-- Power lookup returning a running instance view for every VM. -/
def powRun : Vm → Option (List String) :=
  fun _ => some ["ProvisioningState/succeeded", "PowerState/running"]

/-- A Windows VM carrying the exact tag pairs the specification names. -/
def vmWeb : Vm :=
  { name := "clpe-web-01"
    id := "/subscriptions/5b479b96/resourceGroups/RG1/providers/Microsoft.Compute/virtualMachines/clpe-web-01"
    location := "westeurope"
    vm_size := "Standard_D2s_v3"
    os_type := some "Windows"
    tags := some [("System", "CENTRAL_LOYALTY_PROMOTIONS_ENGINE"), ("ARIS", "CLPE"), ("Name", "CLPE-WEB-01")] }

/-- A Windows VM whose only tag has the combined string
System:CENTRAL_LOYALTY_PROMOTIONS_ENGINE as its value, under an unrelated
key: it lacks the key System entirely. -/
def vmCombined : Vm :=
  { name := "clpe-db-01"
    id := "/subscriptions/5b479b96/resourceGroups/RG1/providers/Microsoft.Compute/virtualMachines/clpe-db-01"
    location := "westeurope"
    vm_size := "Standard_D4s_v3"
    os_type := some "Windows"
    tags := some [("Legacy", "System:CENTRAL_LOYALTY_PROMOTIONS_ENGINE")] }

/-- A Windows VM with tags None. -/
def vmNoTags : Vm :=
  { name := "clpe-tmp-01"
    id := "/subscriptions/5b479b96/resourceGroups/RG1/providers/Microsoft.Compute/virtualMachines/clpe-tmp-01"
    location := "westeurope"
    vm_size := "Standard_B2s"
    os_type := some "Windows"
    tags := none }

/-! ## Helper lemmas -/

/-- The checker discovery loop equals the declarative filter-then-build
pipeline. -/
theorem get_clpe_web_vms_eq (power : Vm → Option (List String)) (vms : List Vm) :
    get_clpe_web_vms power vms = (vms.filter checkerPred).map (toInfoC power) := by
  induction vms with
  | nil => rfl
  | cons v rest ih =>
    cases h : checkerPred v <;>
      simp [get_clpe_web_vms, List.filter_cons, h, ih]

/-- The monitor filter predicate on a VM with a present os_type chain. -/
theorem monitorPred_eq_of_some {v : Vm} {t : String} (h : v.os_type = some t) :
    monitorPred v = monitorPredOs t v.tags := by
  simp [monitorPred, h]

/-- The monitor discovery loop succeeds exactly when every enumerated VM
has an os_type chain, in which case it equals the declarative
filter-then-build pipeline. -/
theorem get_clpe_vms_ok_iff (power : Vm → Option (List String)) (vms : List Vm)
    (out : List MonitorVmInfo) :
    get_clpe_vms power vms = .ok out ↔
      ((∀ v ∈ vms, v.os_type.isSome) ∧
        out = (vms.filter monitorPred).map (toInfoM power)) := by
  induction vms generalizing out with
  | nil =>
    simp only [get_clpe_vms, Except.ok.injEq, List.filter_nil, List.map_nil]
    constructor
    · intro h; exact ⟨by simp, h.symm⟩
    · rintro ⟨-, h⟩; exact h.symm
  | cons v rest ih =>
    cases hos : v.os_type with
    | none => simp [get_clpe_vms, hos]
    | some t =>
      cases hrec : get_clpe_vms power rest with
      | error e =>
        simp only [get_clpe_vms, hos, hrec]
        constructor
        · intro h; exact absurd h (by simp)
        · rintro ⟨hall, -⟩
          have h2 : get_clpe_vms power rest = .ok ((rest.filter monitorPred).map (toInfoM power)) :=
            (ih _).mpr ⟨fun w hw => hall w (List.mem_cons_of_mem _ hw), rfl⟩
          rw [hrec] at h2
          exact absurd h2 (by simp)
      | ok tl =>
        obtain ⟨hall, htl⟩ := (ih tl).mp hrec
        subst htl
        simp only [get_clpe_vms, hos, hrec, Except.ok.injEq]
        constructor
        · intro h
          refine ⟨?_, ?_⟩
          · intro w hw
            rcases List.mem_cons.mp hw with h1 | h2
            · subst h1; simp [hos]
            · exact hall _ h2
          · rw [← h]
            cases hp : monitorPredOs t v.tags <;>
              simp [List.filter_cons, monitorPred, hos, hp]
        · rintro ⟨-, hout⟩
          rw [hout]
          cases hp : monitorPredOs t v.tags <;>
            simp [List.filter_cons, monitorPred, hos, hp]

/-- The all-VMs monitoring loop is the elementwise monitoring map. -/
theorem run_all_monitoring_eq (loads : String → Option PyJson)
    (transport : MonitorVmInfo → RunOutcome) (vms : List MonitorVmInfo) :
    run_all_monitoring loads transport vms = vms.map (monitor_ncrpes_service loads transport) := by
  induction vms with
  | nil => rfl
  | cons vm rest ih => simp [run_all_monitoring, ih]

/-- A VM passing the checker filter has a truthy tag map. -/
theorem checkerPred_tags_truthy {v : Vm} (h : checkerPred v = true) :
    tagsTruthy v.tags = true := by
  simp only [checkerPred, Bool.and_eq_true] at h
  exact h.1.1.1.2

/-- A VM passing the monitor filter has a truthy tag map. -/
theorem monitorPred_tags_truthy {v : Vm} (h : monitorPred v = true) :
    tagsTruthy v.tags = true := by
  cases hos : v.os_type with
  | none => rw [monitorPred, hos] at h; cases h
  | some t =>
    rw [monitorPred, hos] at h
    simp only [monitorPredOs, Bool.and_eq_true] at h
    exact h.1.2

/-- A truthy tag map yields a nonempty tag list in the built vm_info. -/
theorem tagsTruthy_getD_ne_nil {tags : Option (List (String × String))}
    (h : tagsTruthy tags = true) : tags.getD [] ≠ [] := by
  cases tags with
  | none => cases h
  | some l =>
    cases l with
    | nil => cases h
    | cons p r => simp

/-- C6: for every input VM enumeration, both discovery routines exclude
every VM whose OS disk type is not windows under a case-insensitive
comparison, and they output exactly the matching VMs, built elementwise
over a sublist of the input enumeration, hence in input relative order
with no re-sorting. The monitor conjunct is stated for enumerations whose
VMs all carry an os_type chain, as the Azure listing provides; on a
missing chain that routine raises AttributeError instead of filtering. -/
theorem c6_windows_filter_order (power : Vm → Option (List String)) (vms : List Vm) :
    get_clpe_web_vms power vms = (vms.filter checkerPred).map (toInfoC power) ∧
    (∀ v : Vm, v.os_type.map pyLower ≠ some "windows" →
      checkerPred v = false ∧ monitorPred v = false) ∧
    (vms.filter checkerPred).Sublist vms ∧
    (vms.filter monitorPred).Sublist vms ∧
    ((∀ v ∈ vms, v.os_type.isSome) →
      get_clpe_vms power vms = .ok ((vms.filter monitorPred).map (toInfoM power))) := by
  refine ⟨get_clpe_web_vms_eq power vms, ?_, List.filter_sublist _, List.filter_sublist _, ?_⟩
  · intro v h
    cases hos : v.os_type with
    | none => exact ⟨by simp [checkerPred, hos], by simp [monitorPred, hos]⟩
    | some t =>
      have ht : pyLower t ≠ "windows" := by
        intro heq; exact h (by simp [hos, heq])
      have hb : (pyLower t == "windows") = false := by
        cases hbe : pyLower t == "windows"
        · rfl
        · exact absurd (eq_of_beq hbe) ht
      exact ⟨by simp [checkerPred, hos, hb], by simp [monitorPred, monitorPredOs, hos, hb]⟩
  · intro hall
    exact (get_clpe_vms_ok_iff power vms _).mpr ⟨hall, rfl⟩

/-- Witness for C6: the end-to-end monitor conjunct evaluated on a
concrete three-VM enumeration. -/
theorem c6_witness :
    get_clpe_vms powRun [vmWeb, vmCombined, vmNoTags] =
      .ok (([vmWeb, vmCombined, vmNoTags].filter monitorPred).map (toInfoM powRun)) :=
  (c6_windows_filter_order powRun [vmWeb, vmCombined, vmNoTags]).2.2.2.2 (by decide)

/-- C7: a VM whose tag map is None is excluded by both VM filters (the
criteria of both scripts carry at least one tag requirement): the filter
predicates reject it, and the vm_info built from it never occurs in
either routine output. -/
theorem c7_none_tags_excluded (power : Vm → Option (List String)) (vms : List Vm)
    (v : Vm) (h : v.tags = none) :
    checkerPred v = false ∧ monitorPred v = false ∧
    toInfoC power v ∉ get_clpe_web_vms power vms ∧
    (∀ out, get_clpe_vms power vms = .ok out → toInfoM power v ∉ out) := by
  have htr : tagsTruthy v.tags = false := by rw [h]; rfl
  refine ⟨?_, ?_, ?_, ?_⟩
  · cases hc : checkerPred v
    · rfl
    · rw [checkerPred_tags_truthy hc] at htr; cases htr
  · cases hm : monitorPred v
    · rfl
    · rw [monitorPred_tags_truthy hm] at htr; cases htr
  · rw [get_clpe_web_vms_eq]
    intro hmem
    obtain ⟨w, hw, heq⟩ := List.mem_map.mp hmem
    have hpred : checkerPred w = true := (List.mem_filter.mp hw).2
    have hne : w.tags.getD [] ≠ [] := tagsTruthy_getD_ne_nil (checkerPred_tags_truthy hpred)
    have : w.tags.getD [] = v.tags.getD [] := congrArg CheckerVmInfo.tags heq
    rw [this, h] at hne
    exact hne rfl
  · intro out hok hmem
    obtain ⟨-, hout⟩ := (get_clpe_vms_ok_iff power vms out).mp hok
    rw [hout] at hmem
    obtain ⟨w, hw, heq⟩ := List.mem_map.mp hmem
    have hpred : monitorPred w = true := (List.mem_filter.mp hw).2
    have hne : w.tags.getD [] ≠ [] := tagsTruthy_getD_ne_nil (monitorPred_tags_truthy hpred)
    have : w.tags.getD [] = v.tags.getD [] := congrArg MonitorVmInfo.tags heq
    rw [this, h] at hne
    exact hne rfl

/-- Witness for C7: the tagless VM is absent from a concrete checker
discovery output that does keep a matching VM. -/
theorem c7_witness :
    toInfoC powRun vmNoTags ∉ get_clpe_web_vms powRun [vmWeb, vmNoTags] :=
  (c7_none_tags_excluded powRun [vmWeb, vmNoTags] vmNoTags rfl).2.2.1

/-- C8: a VM that passes a filter but whose power-state lookup raises is
still included in the routine output, with power_state set to unknown,
rather than dropped or aborting the enumeration. -/
theorem c8_power_lookup_failure_kept (power : Vm → Option (List String)) (vms : List Vm)
    (v : Vm) (hv : v ∈ vms) (hpow : power v = none) :
    (checkerPred v = true →
      toInfoC power v ∈ get_clpe_web_vms power vms ∧
      (toInfoC power v).power_state = "unknown") ∧
    (monitorPred v = true → ∀ out, get_clpe_vms power vms = .ok out →
      toInfoM power v ∈ out ∧ (toInfoM power v).power_state = "unknown") := by
  constructor
  · intro hpred
    refine ⟨?_, by simp [toInfoC, hpow]⟩
    rw [get_clpe_web_vms_eq]
    exact List.mem_map_of_mem _ (List.mem_filter.mpr ⟨hv, hpred⟩)
  · intro hpred out hok
    obtain ⟨-, hout⟩ := (get_clpe_vms_ok_iff power vms out).mp hok
    refine ⟨?_, by simp [toInfoM, hpow]⟩
    rw [hout]
    exact List.mem_map_of_mem _ (List.mem_filter.mpr ⟨hv, hpred⟩)

/-- Witness for C8: the matching VM is kept with unknown power state when
every lookup raises. -/
theorem c8_witness :
    toInfoC powNone vmWeb ∈ get_clpe_web_vms powNone [vmWeb, vmNoTags] ∧
    (toInfoC powNone vmWeb).power_state = "unknown" :=
  (c8_power_lookup_failure_kept powNone [vmWeb, vmNoTags] vmWeb (by decide) rfl).1 (by decide)

/-- C2, evaluation at the failing input: vmWeb carries the exact pair
System to CENTRAL_LOYALTY_PROMOTIONS_ENGINE (and the checker filter keeps
it), yet the monitor filter rejects it, because line 52 of the monitor
tests membership of the combined string
System:CENTRAL_LOYALTY_PROMOTIONS_ENGINE among the tag values; dually,
vmCombined lacks the key System entirely but carries that combined string
as a value under another key, and the monitor filter keeps it. -/
theorem c2_monitor_tag_check_eval :
    tagsGet vmWeb.tags "System" = some clpeEngine ∧
    checkerPred vmWeb = true ∧
    monitorPred vmWeb = false ∧
    tagsGet vmCombined.tags "System" = none ∧
    monitorPred vmCombined = true ∧
    get_clpe_vms powRun [vmWeb, vmCombined] = .ok [toInfoM powRun vmCombined] := by
  refine ⟨rfl, by decide, by decide, rfl, by decide, ?_⟩
  rfl

/-- C3, counterexample: on a one-element enumeration whose VM passes the
tag checks, the routine with the stray fragment in place does not return
the list the fragment-free routine returns (it raises instead). -/
theorem c3_counterexample :
    get_clpe_web_vms_frag powRun [vmWeb] ≠ .ok (get_clpe_web_vms powRun [vmWeb]) := by
  intro h
  rw [show get_clpe_web_vms_frag powRun [vmWeb] =
        .error "NameError: name tag_filter is not defined" from rfl] at h
  exact Except.noConfusion h

/-- C3, amended: the stray fragment is not dead code. Under its only
executable reading it is reached by every VM that passes the tag checks
and aborts the routine there, so the routine with the fragment agrees
with the fragment-free routine exactly on enumerations in which no VM
passes the filter. -/
theorem c3_fragment_not_dead (power : Vm → Option (List String)) (vms : List Vm) :
    get_clpe_web_vms_frag power vms = .ok (get_clpe_web_vms power vms) ↔
      ∀ v ∈ vms, checkerPred v = false := by
  induction vms with
  | nil => simp [get_clpe_web_vms_frag, get_clpe_web_vms]
  | cons v rest ih =>
    cases h : checkerPred v with
    | true =>
      simp only [get_clpe_web_vms_frag, get_clpe_web_vms, h, if_true, List.forall_mem_cons]
      constructor
      · intro he; exact absurd he (by simp)
      · rintro ⟨hv, -⟩; cases hv
    | false =>
      simp only [get_clpe_web_vms_frag, get_clpe_web_vms, h, List.forall_mem_cons]
      simp [ih, h]

/-! ## Concrete values for the health-check claims -/

/-- Model of json.loads restricted to the inputs of the concrete
instantiations below: the text consisting of the empty JSON array parses
to the empty array, everything else fails to parse. -/
def loadsEmptyArr : String → Option PyJson :=
  fun s => if s = "[]" then some (.arr []) else none

/-- A monitor vm_info for a running web VM. -/
def infoWeb : MonitorVmInfo :=
  { name := "clpe-web-01", resource_group := "RG1", location := "westeurope"
    vm_size := "Standard_D2s_v3", power_state := "running"
    tags := [("System", clpeEngine)], os_version := "Windows Server 2016 Datacenter" }

/-- A monitor vm_info for a stopped database VM. -/
def infoDb : MonitorVmInfo :=
  { name := "clpe-db-01", resource_group := "RG1", location := "westeurope"
    vm_size := "Standard_D4s_v3", power_state := "stopped"
    tags := [("Legacy", clpeTag)], os_version := "Windows Server 2016 Datacenter" }

/-- A monitor vm_info for a second web VM with unknown power state. -/
def infoWeb2 : MonitorVmInfo :=
  { name := "clpe-web-02", resource_group := "RG2", location := "westeurope"
    vm_size := "Standard_D2s_v3", power_state := "unknown"
    tags := [("System", clpeEngine)], os_version := "Windows Server 2016 Datacenter" }

/-- A checker vm_info for a running VM. -/
def infoC : CheckerVmInfo :=
  { name := "clpe-web-01", resource_group := "RG1", location := "westeurope"
    vm_size := "Standard_D2s_v3", power_state := "running", tags := [("ARIS", "CLPE")] }

/-- A checker vm_info for a stopped VM. -/
def infoCStopped : CheckerVmInfo :=
  { name := "clpe-web-03", resource_group := "RG1", location := "westeurope"
    vm_size := "Standard_D2s_v3", power_state := "stopped", tags := [("ARIS", "CLPE")] }

/-- A transport behaviour whose call raises an AzureError on the database
VM and answers every other VM with the empty-array message. -/
def transport3 : MonitorVmInfo → RunOutcome :=
  fun vm => if vm.name = "clpe-db-01" then .azureError "boom" else .ok ["[]"]

/-- The three-VM list of the C4 scenario, the faulting VM second. -/
def vms3 : List MonitorVmInfo := [infoWeb, infoDb, infoWeb2]

/-- C1, counterexample: a remote execution whose response message is the
text of the empty JSON array parses successfully in both scripts and
yields the success outcome carrying zero services, not a failure. -/
theorem c1_counterexample :
    check_service_health loadsEmptyArr (.ok ["[]"]) = .success [] "[]" ∧
    monitor_ncrpes_service loadsEmptyArr (fun _ => .ok ["[]"]) infoDb =
      .success "clpe-db-01" (.arr []) "[]" := by
  constructor <;> rfl

/-- C1, amended: the distinct no-output failure fires exactly when the
response value list itself is empty or missing, while a response message
equal to the empty JSON array text parses and yields success with zero
services. -/
theorem c1_empty_vs_empty_array (loads : String → Option PyJson)
    (transport : MonitorVmInfo → RunOutcome) (vm : MonitorVmInfo) :
    check_service_health loads (.ok []) = .failure "No output received from VM" "" ∧
    (loads "[]" = some (.arr []) →
      check_service_health loads (.ok ["[]"]) = .success [] "[]") ∧
    (transport vm = .ok [] →
      monitor_ncrpes_service loads transport vm =
        .failure vm.name "No output received from VM" "") ∧
    (transport vm = .ok ["[]"] → loads "[]" = some (.arr []) →
      monitor_ncrpes_service loads transport vm = .success vm.name (.arr []) "[]") := by
  refine ⟨rfl, ?_, ?_, ?_⟩
  · intro h; simp [check_service_health, h]
  · intro h; simp [monitor_ncrpes_service, h]
  · intro ht hl; simp [monitor_ncrpes_service, ht, hl]

/-- Witness for C1: the amended statement instantiated at the concrete
loads function and transports. -/
theorem c1_witness :
    check_service_health loadsEmptyArr (.ok []) = .failure "No output received from VM" "" ∧
    monitor_ncrpes_service loadsEmptyArr (fun _ => .ok []) infoDb =
      .failure "clpe-db-01" "No output received from VM" "" ∧
    monitor_ncrpes_service loadsEmptyArr (fun _ => .ok ["[]"]) infoWeb =
      .success "clpe-web-01" (.arr []) "[]" :=
  ⟨(c1_empty_vs_empty_array loadsEmptyArr (fun _ => .ok []) infoDb).1,
   (c1_empty_vs_empty_array loadsEmptyArr (fun _ => .ok []) infoDb).2.2.1 rfl,
   (c1_empty_vs_empty_array loadsEmptyArr (fun _ => .ok ["[]"]) infoWeb).2.2.2 rfl rfl⟩

/-- C4: in the all-VMs monitoring loop, a transport fault raised on one
VM never prevents the checks of the other VMs: the loop still renders one
report per VM, and the report of every other position is exactly the
monitoring result of the VM at that position, in list order. -/
theorem c4_fault_isolation (loads : String → Option PyJson)
    (transport : MonitorVmInfo → RunOutcome) (vms : List MonitorVmInfo)
    (i : Nat) (e : String) (hi : i < vms.length)
    (hfault : transport (vms.get ⟨i, hi⟩) = .azureError e) :
    (run_all_monitoring loads transport vms).length = vms.length ∧
    ∀ j (hj : j < vms.length), j ≠ i →
      (run_all_monitoring loads transport vms).get? j =
        some (monitor_ncrpes_service loads transport (vms.get ⟨j, hj⟩)) := by
  rw [run_all_monitoring_eq]
  refine ⟨List.length_map _ _, ?_⟩
  intro j hj _
  rw [List.get?_map, List.get?_eq_get hj]
  rfl

/-- Witness for C4: three VMs with the second faulting; reports for the
first and third are still produced in order. -/
theorem c4_witness :
    (run_all_monitoring loadsEmptyArr transport3 vms3).length = 3 ∧
    (run_all_monitoring loadsEmptyArr transport3 vms3).get? 0 =
      some (monitor_ncrpes_service loadsEmptyArr transport3 (vms3.get ⟨0, by decide⟩)) ∧
    (run_all_monitoring loadsEmptyArr transport3 vms3).get? 2 =
      some (monitor_ncrpes_service loadsEmptyArr transport3 (vms3.get ⟨2, by decide⟩)) :=
  ⟨(c4_fault_isolation loadsEmptyArr transport3 vms3 1 "boom" (by decide) rfl).1,
   (c4_fault_isolation loadsEmptyArr transport3 vms3 1 "boom" (by decide) rfl).2 0 (by decide) (by decide),
   (c4_fault_isolation loadsEmptyArr transport3 vms3 1 "boom" (by decide) rfl).2 2 (by decide) (by decide)⟩

/-- C5: a nonempty response message on which json.loads raises yields, in
both scripts, the parse failure with the raw response text preserved
verbatim in the raw_output field; the functions are total, so no
exception reaches the caller. -/
theorem c5_parse_failure_preserves_raw (loads : String → Option PyJson)
    (output : String) (restMsgs : List String)
    (transport : MonitorVmInfo → RunOutcome) (vm : MonitorVmInfo)
    (hne : output ≠ "") (hparse : loads output = none) :
    check_service_health loads (.ok (output :: restMsgs)) =
      .failure "Failed to parse service information" output ∧
    (transport vm = .ok (output :: restMsgs) →
      monitor_ncrpes_service loads transport vm =
        .failure vm.name "Failed to parse service information" output) := by
  constructor
  · simp [check_service_health, hparse]
  · intro h; simp [monitor_ncrpes_service, h, hparse]

/-- Witness for C5: a concrete malformed message. -/
theorem c5_witness :
    check_service_health loadsEmptyArr (.ok ["not-json"]) =
      .failure "Failed to parse service information" "not-json" ∧
    monitor_ncrpes_service loadsEmptyArr (fun _ => .ok ["not-json"]) infoDb =
      .failure "clpe-db-01" "Failed to parse service information" "not-json" :=
  ⟨(c5_parse_failure_preserves_raw loadsEmptyArr "not-json" []
      (fun _ => .ok ["not-json"]) infoDb (by decide) rfl).1,
   (c5_parse_failure_preserves_raw loadsEmptyArr "not-json" []
      (fun _ => .ok ["not-json"]) infoDb (by decide) rfl).2 rfl⟩

/-- An operator answer that is rejected by the selection prompts: int()
raises on it, or it resolves to an index outside 1..n. -/
def badChoice (o : Option Int) (n : Nat) : Prop :=
  o = none ∨ ∃ k, o = some k ∧ (k < 1 ∨ (n : Int) < k)

/-- C9: in both selection prompts, an answer that is neither a cancel
token nor (for the monitor) the all token, and that int() rejects or that
resolves to an index outside 1..N, makes the loop consume the answer and
continue with the remaining input unchanged, neither terminating nor
raising nor returning a VM; a cancel token returns None, and an index in
1..N of a running VM returns that VM. -/
theorem c9_invalid_input_reprompts (vmsC : List CheckerVmInfo) (vmsM : List MonitorVmInfo)
    (rest : List String) (c : String) :
    (pyLower (pyStrip c) ∉ quitTokens → badChoice (pyInt (pyStrip c)) vmsC.length →
      selectLoopC vmsC (c :: rest) = selectLoopC vmsC rest) ∧
    (pyLower (pyStrip c) ∈ quitTokens → selectLoopC vmsC (c :: rest) = some none) ∧
    (∀ k vm, pyLower (pyStrip c) ∉ quitTokens → pyInt (pyStrip c) = some k →
      1 ≤ k → k ≤ (vmsC.length : Int) → vmsC.get? (k - 1).toNat = some vm →
      vm.power_state = "running" → selectLoopC vmsC (c :: rest) = some (some vm)) ∧
    (pyLower (pyStrip c) ∉ quitTokens → pyLower (pyStrip c) ≠ "all" →
      badChoice (pyInt (pyLower (pyStrip c))) vmsM.length →
      selectLoopM vmsM (c :: rest) = selectLoopM vmsM rest) ∧
    (pyLower (pyStrip c) ∈ quitTokens → selectLoopM vmsM (c :: rest) = some none) ∧
    (∀ k vm, pyLower (pyStrip c) ∉ quitTokens → pyLower (pyStrip c) ≠ "all" →
      pyInt (pyLower (pyStrip c)) = some k →
      1 ≤ k → k ≤ (vmsM.length : Int) → vmsM.get? (k - 1).toNat = some vm →
      vm.power_state = "running" →
      selectLoopM vmsM (c :: rest) = some (some (.one vm))) := by
  refine ⟨?_, ?_, ?_, ?_, ?_, ?_⟩
  · intro hq hbad
    rcases hbad with hnone | ⟨k, hk, hrange⟩
    · simp [selectLoopC, hq, hnone]
    · have hcond : ¬(1 ≤ k ∧ k ≤ (vmsC.length : Int)) := by
        rcases hrange with h | h <;> omega
      simp [selectLoopC, hq, hk, hcond]
  · intro hq
    simp [selectLoopC, hq]
  · intro k vm hq hk h1 h2 hget hrun
    have hcond : 1 ≤ k ∧ k ≤ (vmsC.length : Int) := ⟨h1, h2⟩
    have hidx : (k - 1).toNat = k.toNat - 1 := by omega
    rw [hidx, List.get?_eq_getElem?] at hget
    simp [selectLoopC, hq, hk, hcond, hget, hrun]
  · intro hq hall hbad
    rcases hbad with hnone | ⟨k, hk, hrange⟩
    · simp [selectLoopM, hq, hall, hnone]
    · have hcond : ¬(1 ≤ k ∧ k ≤ (vmsM.length : Int)) := by
        rcases hrange with h | h <;> omega
      simp [selectLoopM, hq, hall, hk, hcond]
  · intro hq
    simp [selectLoopM, hq]
  · intro k vm hq hall hk h1 h2 hget hrun
    have hcond : 1 ≤ k ∧ k ≤ (vmsM.length : Int) := ⟨h1, h2⟩
    have hidx : (k - 1).toNat = k.toNat - 1 := by omega
    rw [hidx, List.get?_eq_getElem?] at hget
    simp [selectLoopM, hq, hall, hk, hcond, hget, hrun]

/-- Witness for C9: concrete re-prompts on a non-numeric answer and on
out-of-range indices, a cancel, and a successful in-range selection, in
both prompts. -/
theorem c9_witness :
    selectLoopC [infoC] ("abc" :: ["1"]) = selectLoopC [infoC] ["1"] ∧
    selectLoopC [infoC] ("0" :: ["1"]) = selectLoopC [infoC] ["1"] ∧
    selectLoopC [infoC] ("2" :: []) = selectLoopC [infoC] [] ∧
    selectLoopC [infoC] ("q" :: []) = some none ∧
    selectLoopC [infoC] ("1" :: []) = some (some infoC) ∧
    selectLoopM [infoWeb] ("xyz" :: []) = selectLoopM [infoWeb] [] ∧
    selectLoopM [infoWeb] ("1" :: []) = some (some (MonitorSelection.one infoWeb)) :=
  ⟨(c9_invalid_input_reprompts [infoC] [infoWeb] ["1"] "abc").1 (by decide)
      (Or.inl (by decide)),
   (c9_invalid_input_reprompts [infoC] [infoWeb] ["1"] "0").1 (by decide)
      (Or.inr ⟨0, by decide, Or.inl (by decide)⟩),
   (c9_invalid_input_reprompts [infoC] [infoWeb] [] "2").1 (by decide)
      (Or.inr ⟨2, by decide, Or.inr (by decide)⟩),
   (c9_invalid_input_reprompts [infoC] [infoWeb] [] "q").2.1 (by decide),
   (c9_invalid_input_reprompts [infoC] [infoWeb] [] "1").2.2.1 1 infoC (by decide)
      (by decide) (by decide) (by decide) (by decide) rfl,
   (c9_invalid_input_reprompts [infoC] [infoWeb] [] "xyz").2.2.2.1 (by decide) (by decide)
      (Or.inl (by decide)),
   (c9_invalid_input_reprompts [infoC] [infoWeb] [] "1").2.2.2.2.2 1 infoWeb (by decide)
      (by decide) (by decide) (by decide) (by decide) (by decide) rfl⟩

/-- C10: in the monitor prompt the answer all returns the select-all
sentinel carrying the whole filtered list at once, independently of the
remaining input (no power-state confirmation is read), and the all-VMs
loop then targets every VM of the sentinel in order, including stopped
and unknown ones, with no further prompt. -/
theorem c10_all_sentinel (vms : List MonitorVmInfo) (rest : List String)
    (loads : String → Option PyJson) (transport : MonitorVmInfo → RunOutcome)
    (hne : vms ≠ []) :
    select_clpe_vm vms ("all" :: rest) = some (some (MonitorSelection.all vms)) ∧
    (run_all_monitoring loads transport vms).length = vms.length ∧
    ∀ j (hj : j < vms.length),
      (run_all_monitoring loads transport vms).get? j =
        some (monitor_ncrpes_service loads transport (vms.get ⟨j, hj⟩)) := by
  refine ⟨?_, ?_, ?_⟩
  · have hemp : vms.isEmpty = false := by
      cases vms with
      | nil => exact absurd rfl hne
      | cons v r => rfl
    have h1 : ("all" : String) ∉ quitTokens := by decide
    have h2 : pyLower (pyStrip "all") = "all" := by decide
    simp [select_clpe_vm, hemp, selectLoopM, h2, h1]
  · rw [run_all_monitoring_eq]; exact List.length_map _ _
  · intro j hj
    rw [run_all_monitoring_eq, List.get?_map, List.get?_eq_get hj]
    rfl

/-- Witness for C10: a one-element list holding a stopped VM is selected
whole by the all answer, with no confirmation answer available to
consume, and that stopped VM is then targeted by the loop. -/
theorem c10_witness :
    select_clpe_vm [infoDb] ["all"] = some (some (MonitorSelection.all [infoDb])) ∧
    (run_all_monitoring loadsEmptyArr transport3 [infoDb]).get? 0 =
      some (monitor_ncrpes_service loadsEmptyArr transport3 infoDb) :=
  ⟨(c10_all_sentinel [infoDb] [] loadsEmptyArr transport3 (by decide)).1,
   (c10_all_sentinel [infoDb] [] loadsEmptyArr transport3 (by decide)).2.2 0 (by decide)⟩

end Clpe
